import Mathlib

/-!
Verification of the kiro-gateway request/response orchestration layer.

This file gives a shallow embedding, in Lean 4, of the parts of the
repository that the checked claims are about:

* the truncation-recovery preprocessor inlined in
  `routes_openai.chat_completions` (lines 206-243);
* the conversation state store (`store_responses.ResponseStateStore`),
  in particular its startup expiration sweep;
* the request-history store (`store_history.RequestHistory`);
* the API key manager (`store_apikeys.ApiKeyManager.verify_key`);
* the non-streaming upstream-error path of both endpoint handlers;
* the `previous_response_id` lookup of the `responses` handler;
* the Responses-grammar streaming translator (`stream_wrapper` in
  `responses`), including its guaranteed-release (`finally`) block.

External collaborators that live outside `src/` (the truncation registry
`kiro.truncation_state`, the notice generators in
`kiro.truncation_recovery`, the error enhancer `kiro.kiro_errors`) are
modelled as parameters or as definitions marked `Modelled from the spec`.
-/

namespace Kiro

/-- Python value stored in a `ChatMessage.content` field: `None`, a plain
string, or structured content (a list; its elements are kept abstractly as
their string renderings). Mirrors `content: Optional[Union[str, List[Any], Any]]`
in `models_openai.ChatMessage`. -/
inductive MsgContent where
  | nullc : MsgContent
  | text (s : String) : MsgContent
  | parts (items : List String) : MsgContent
deriving DecidableEq

/-- Python truthiness of an optional string (`None` and `""` are falsy). -/
def optTruthy : Option String → Bool
  | none => false
  | some s => !(s.isEmpty)

/-- Python truthiness of a `content` value (`None`, `""` and `[]` are falsy). -/
def contentTruthy : MsgContent → Bool
  | .nullc => false
  | .text s => !(s.isEmpty)
  | .parts items => !(items.isEmpty)

/-- `isinstance(msg.content, str)`. -/
def isTextContent : MsgContent → Bool
  | .text _ => true
  | _ => false

/-- Python f-string rendering of a `content` value, as used by
`f"...{msg.content}"` in the tool-result rewrite (`routes_openai.py:218`):
`None` renders as `"None"`, a string as itself, a list via its repr. -/
def fstr : MsgContent → String
  | .nullc => "None"
  | .text s => s
  | .parts items => "[" ++ String.intercalate ", " items ++ "]"

/-- `models_openai.ChatMessage`: role, content, optional name, optional
tool-call list (payloads kept abstract), optional tool-call id. -/
structure ChatMessage where
  role : String
  content : MsgContent := .nullc
  name : Option String := none
  tool_calls : Option (List String) := none
  tool_call_id : Option String := none
deriving DecidableEq

/-- A record of the external truncation registry keyed by tool-call id
(`kiro.truncation_state.get_tool_truncation`), carrying the tool name and
a description of the truncation. -/
structure ToolTruncationInfo where
  tool_name : String
  truncation_info : String
deriving DecidableEq

/-- A record of the external truncation registry keyed by a fingerprint of
assistant text (`kiro.truncation_state.get_content_truncation`). -/
structure ContentTruncationInfo where
  message_hash : String
deriving DecidableEq

/-- The external truncation registry (module `kiro.truncation_state`,
outside this repository's core): read-only lookup by tool-call id or by
content fingerprint. The repair loop is verified for an arbitrary
registry. -/
structure TruncationRegistry where
  get_tool_truncation : String → Option ToolTruncationInfo
  get_content_truncation : String → Option ContentTruncationInfo

/-- Modelled from the spec: `kiro.truncation_recovery.generate_truncation_tool_result`
is not under `src/`; per §4.1 the synthesized notice is built from the
record's tool name and call id. Only the `content` field of its result is
used by the handler, so it is modelled as that string. -/
def generate_truncation_tool_result (tool_name : String) (tool_use_id : String)
    (truncation_info : String) : String :=
  "[System notice] The result of tool call " ++ tool_use_id ++ " (" ++ tool_name
    ++ ") was truncated by the upstream provider: " ++ truncation_info

/-- Modelled from the spec: `kiro.truncation_recovery.generate_truncation_user_message`
is not under `src/`; per §4.1 it is a fixed truncation-notice text. -/
def generate_truncation_user_message : String :=
  "[System notice] Your previous message was truncated by the upstream provider before completion. Please continue from where you left off."

/-- Separator placed between the synthesized notice and the original tool
result (`routes_openai.py:218`). -/
def toolResultSeparator : String := "\n\n---\n\nOriginal tool result:\n"

/-- The synthetic `user` message inserted after a truncated assistant
message (`routes_openai.py:234-237`). -/
def syntheticUserMessage : ChatMessage :=
  { role := "user", content := .text generate_truncation_user_message }

/-- The assistant-content arm of one iteration of the repair loop
(`routes_openai.py:228-241` and the default append at line 243): if the
message is an assistant message with truthy plain-text content whose
fingerprint is in the registry, emit it followed by a synthetic user
message; otherwise emit it unchanged. Returns the emitted messages and
the `(tool_results_modified, content_notices_added)` increments. -/
def repairStepAssistant (reg : TruncationRegistry) (msg : ChatMessage) :
    List ChatMessage × Nat × Nat :=
  if msg.role = "assistant" && contentTruthy msg.content && isTextContent msg.content then
    match reg.get_content_truncation (fstr msg.content) with
    | some _ => ([msg, syntheticUserMessage], 0, 1)
    | none => ([msg], 0, 0)
  else ([msg], 0, 0)

/-- One iteration of the repair loop (`routes_openai.py:206-243`): a `tool`
message with a truthy `tool_call_id` found in the registry has its content
replaced by `notice ++ separator ++ original`; on a registry miss, or for
any other message, control falls through to the assistant-content check. -/
def repairStep (reg : TruncationRegistry) (msg : ChatMessage) :
    List ChatMessage × Nat × Nat :=
  if msg.role = "tool" && optTruthy msg.tool_call_id then
    match reg.get_tool_truncation (msg.tool_call_id.getD "") with
    | some info =>
        let synthetic := generate_truncation_tool_result info.tool_name
          (msg.tool_call_id.getD "") info.truncation_info
        ([{ msg with
            content := .text (synthetic ++ toolResultSeparator ++ fstr msg.content) }], 1, 0)
    | none => repairStepAssistant reg msg
  else repairStepAssistant reg msg

/-- The full repair loop over the incoming message list
(`routes_openai.py:206-243`): each iteration appends its emitted messages
to `modified_messages` and accumulates the two counters. -/
def repairMessages (reg : TruncationRegistry) : List ChatMessage → List ChatMessage × Nat × Nat
  | [] => ([], 0, 0)
  | msg :: rest =>
    let step := repairStep reg msg
    let tail := repairMessages reg rest
    (step.1 ++ tail.1, step.2.1 + tail.2.1, step.2.2 + tail.2.2)

/-- Total number of modifications reported by the repair loop
(`tool_results_modified + content_notices_added`, `routes_openai.py:245`). -/
def repairModifiedCount (reg : TruncationRegistry) (msgs : List ChatMessage) : Nat :=
  (repairMessages reg msgs).2.1 + (repairMessages reg msgs).2.2

/-- Whether a message is a "qualifying assistant message" of the
content-truncation arm: role `assistant`, truthy plain-text content whose
fingerprint the registry holds. -/
def qualifiesContentTruncation (reg : TruncationRegistry) (msg : ChatMessage) : Bool :=
  msg.role = "assistant" && contentTruthy msg.content && isTextContent msg.content
    && (reg.get_content_truncation (fstr msg.content)).isSome

/-- Concrete registry used to exercise the repair loop: one tool-call
record under id `call_1`, no content-fingerprint records. -/
def cexRegistry : TruncationRegistry where
  get_tool_truncation := fun id =>
    if id = "call_1" then some { tool_name := "read_file", truncation_info := "output exceeded limit" }
    else none
  get_content_truncation := fun _ => none

/-- A message list containing one tool result whose `tool_call_id` is in
`cexRegistry`. -/
def cexMsgs : List ChatMessage :=
  [{ role := "tool", content := .text "original tool output", tool_call_id := some "call_1" }]

/-! ### Conversation State Store (`store_responses.ResponseStateStore`) -/

/-- A parsed-or-not timestamp string: `valid t` when
`datetime.fromisoformat` succeeds (the instant modelled as an integer),
`invalid` when it raises. -/
inductive TimeVal where
  | valid (t : Int) : TimeVal
  | invalid : TimeVal
deriving DecidableEq

/-- A plain `{"role": ..., "content": ...}` message dict, the shape the
`responses` handler stores and reloads (`routes_openai.py:500,682`). -/
structure SimpleMessage where
  role : String
  content : String
deriving DecidableEq

/-- One value of the `ResponseStateStore` map (`store_responses.py:116-122`).
Timestamp fields are `Option TimeVal`: `none` models an absent key,
`some .invalid` a present but unparseable string. -/
structure ResponseState where
  messages : List SimpleMessage := []
  model : String := ""
  metadata : List (String × String) := []
  created_at : Option TimeVal := none
  last_accessed : Option TimeVal := none
deriving DecidableEq

/-- The effective timestamp the sweep parses:
`state.get("last_accessed", state.get("created_at"))`
(`store_responses.py:82`). -/
def effectiveTimestamp (st : ResponseState) : Option TimeVal :=
  match st.last_accessed with
  | some tv => some tv
  | none => st.created_at

/-- Whether the startup sweep marks a record expired
(`store_responses.py:80-87`): the timestamp is missing (parsing `None`
raises), unparseable, or strictly before the cutoff `now - max_age_days`. -/
def tsExpired (cutoff : Int) (st : ResponseState) : Bool :=
  match effectiveTimestamp st with
  | none => true
  | some .invalid => true
  | some (.valid t) => decide (t < cutoff)

/-- The startup expiration sweep `_cleanup_expired`
(`store_responses.py:74-94`): collect the ids of expired records and
delete them from the ordered map, keeping the others in order. -/
def cleanupExpired (cutoff : Int) (states : List (String × ResponseState)) :
    List (String × ResponseState) :=
  states.filter (fun p => !(tsExpired cutoff p.2))

/-- Pure lookup part of `ResponseStateStore.get` (`store_responses.py:142`):
first value bound to the id in the ordered map. The `last_accessed` touch
and LRU move are side effects with no bearing on the checked claims. -/
def storeGet (states : List (String × ResponseState)) (response_id : String) :
    Option ResponseState :=
  (states.find? (fun p => p.1 = response_id)).map (fun p => p.2)

/-! ### Request history store (`store_history.RequestHistory`) -/

/-- One history record (`store_history.py:62-74`); the generated `id` and
`time` fields are environment-supplied and kept as plain data. -/
structure HistoryEntry where
  id : String := ""
  time : String := ""
  endpoint : String := ""
  method : String := ""
  model : String := ""
  stream : Bool := false
  status_code : Nat := 0
  latency_ms : Nat := 0
  input_tokens : Option Nat := none
  output_tokens : Option Nat := none
  error : Option String := none
deriving DecidableEq

/-- `RequestHistory`: a deque with `maxlen = max_size` (default 200), most
recent record first (`store_history.py:22-26`). -/
structure RequestHistory where
  max_size : Nat := 200
  records : List HistoryEntry := []
deriving DecidableEq

/-- `RequestHistory.record` (`store_history.py:50-77`): `appendleft` on a
deque with `maxlen = max_size` places the entry at the front and, when the
deque is full, discards the rightmost (oldest) entry. -/
def RequestHistory.record (h : RequestHistory) (e : HistoryEntry) : RequestHistory :=
  { h with records := (e :: h.records).take h.max_size }

/-! ### API key manager (`store_apikeys.ApiKeyManager`) -/

/-- `store_apikeys.ApiKeyEntry`. -/
structure ApiKeyEntry where
  id : String
  name : String
  key : String
  created_at : String
  enabled : Bool := true
deriving DecidableEq

/-- `ApiKeyManager.verify_key` (`store_apikeys.py:163-180`): the bearer
token is valid when it equals `PROXY_API_KEY` from the environment
(modelled as `Option String`, `none` when unset) or matches the key of an
enabled stored entry. `keys` is the list of values of `self._keys`. -/
def verify_key (proxyApiKey : Option String) (keys : List ApiKeyEntry)
    (bearer_token : String) : Bool :=
  if proxyApiKey = some bearer_token then true
  else keys.any (fun e => e.enabled && e.key = bearer_token)

/-! ### Non-streaming upstream-error path of the two handlers -/

/-- The OpenAI-shaped error envelope `{"error": {"message", "type", "code"}}`
returned by both handlers on a non-2xx upstream status
(`routes_openai.py:334-343` and `routes_openai.py:574-583`). -/
structure ErrorEnvelope where
  message : String
  type : String
  code : Nat
deriving DecidableEq

/-- What a handler returns once the upstream status line has been read. -/
inductive HandlerResult where
  | jsonError (httpStatus : Nat) (env : ErrorEnvelope) : HandlerResult
  | streamingResponse : HandlerResult
  | jsonOk (httpStatus : Nat) : HandlerResult
deriving DecidableEq

/-- Post-acceptance classification in `chat_completions`
(`routes_openai.py:301-429`): on `status_code != 200` read the error body,
run it through the error enhancer (`kiro.kiro_errors.enhance_kiro_error`,
external; modelled as an oracle returning `some user_message` on a parsed
structured error and `none` on `JSONDecodeError`/`KeyError`), and return a
JSON error envelope carrying the upstream status both as HTTP status and
as `code`; on 200, stream or collect. -/
def chatCompletionsAfterUpstream (stream : Bool) (status : Nat) (errorBody : String)
    (enhance : String → Option String) : HandlerResult :=
  if status ≠ 200 then
    let error_message := (enhance errorBody).getD errorBody
    .jsonError status { message := error_message, type := "kiro_api_error", code := status }
  else if stream then .streamingResponse
  else .jsonOk 200

/-- Post-acceptance classification in `responses`
(`routes_openai.py:556-729`): same non-2xx error branch as
`chat_completions`. -/
def responsesAfterUpstream (stream : Bool) (status : Nat) (errorBody : String)
    (enhance : String → Option String) : HandlerResult :=
  if status ≠ 200 then
    let error_message := (enhance errorBody).getD errorBody
    .jsonError status { message := error_message, type := "kiro_api_error", code := status }
  else if stream then .streamingResponse
  else .jsonOk 200

/-! ### `previous_response_id` lookup in the `responses` handler -/

/-- Message-history assembly of the `responses` handler before any upstream
work (`routes_openai.py:482-501`): an unknown `previous_response_id` raises
`HTTPException(404, "Previous response ID not found: <id>")`; otherwise the
prior messages are extended with the converted input messages. -/
def responsesBuildMessages (states : List (String × ResponseState))
    (previous_response_id : Option String) (input : List SimpleMessage) :
    Except (Nat × String) (List SimpleMessage) :=
  match previous_response_id with
  | some pid =>
    match storeGet states pid with
    | none => .error (404, "Previous response ID not found: " ++ pid)
    | some st => .ok (st.messages ++ input)
  | none => .ok input

/-- Outcome of the `responses` handler's staged control flow: either it
fails before the upstream call, or it proceeds and the upstream oracle is
consulted with the assembled history. -/
inductive ResponsesOutcome where
  | earlyError (status : Nat) (detail : String) : ResponsesOutcome
  | proceeded (upstreamStatus : Nat) : ResponsesOutcome
deriving DecidableEq

/-- Staging of the `responses` handler (`routes_openai.py:482-554`): the
upstream call (`upstream`, an oracle from the assembled message history to
the upstream status) is reached only after history assembly succeeds. -/
def responsesHandlerStage (states : List (String × ResponseState))
    (previous_response_id : Option String) (input : List SimpleMessage)
    (upstream : List SimpleMessage → Nat) : ResponsesOutcome :=
  match responsesBuildMessages states previous_response_id input with
  | .error e => .earlyError e.1 e.2
  | .ok msgs => .proceeded (upstream msgs)

/-! ### Responses-grammar streaming translator (`responses.stream_wrapper`,
`routes_openai.py:595-693`) -/

/-- One element of a chunk's `delta.tool_calls` list: the call id and the
`function.arguments` fragment (`routes_openai.py:649-658`). -/
structure ToolCallDelta where
  id : Option String := none
  arguments : Option String := none
deriving DecidableEq

/-- One element of a chunk's `choices` list, reduced to the delta fields the
translator reads (`routes_openai.py:638-649`). -/
structure ChoiceDelta where
  content : Option String := none
  tool_calls : List ToolCallDelta := []
deriving DecidableEq

/-- One frame of the already-normalized upstream stream produced by
`stream_kiro_to_openai` (external): either the `[DONE]` sentinel or an
OpenAI-chunk-shaped frame with a `choices` list. -/
inductive UpstreamChunk where
  | done : UpstreamChunk
  | chunk (choices : List ChoiceDelta) : UpstreamChunk
deriving DecidableEq

/-- The downstream Responses-grammar SSE events emitted by `stream_wrapper`. -/
inductive RespEvent where
  | outputItemAdded (itemId : String) (role : String) (content : List String) : RespEvent
  | textDelta (delta : String) : RespEvent
  | functionCallArgumentsDelta (delta : String) (call_id : Option String) : RespEvent
  | responseDone (response_id : String) (status : String) : RespEvent
  | responseError (message : String) : RespEvent
deriving DecidableEq

/-- Events and accumulator fragment produced from the first choice of a
chunk (`routes_openai.py:638-658`): one `response.text.delta` for a truthy
`delta.content` fragment (also appended to `assistant_message_content`),
then one `response.function_call_arguments.delta` per tool call with truthy
`function.arguments`. -/
def choiceEvents (choice : ChoiceDelta) : List RespEvent × String :=
  let textPart : List RespEvent × String :=
    match choice.content with
    | some s => if s.isEmpty then ([], "") else ([.textDelta s], s)
    | none => ([], "")
  let toolEvents : List RespEvent :=
    choice.tool_calls.flatMap (fun tc =>
      match tc.arguments with
      | some a => if a.isEmpty then [] else [.functionCallArgumentsDelta a tc.id]
      | none => [])
  (textPart.1 ++ toolEvents, textPart.2)

/-- Translation of one upstream frame (`routes_openai.py:608-658`): the
`[DONE]` sentinel yields one `response.done` event; otherwise, if this is
the first chunk with a truthy `choices` list, a `response.output_item.added`
event (fresh item id, role `assistant`, empty content) precedes the delta
events of `choices[0]`. Returns the events, the accumulator fragment and
the updated `first_chunk` flag. -/
def chunkEvents (itemId : String) (response_id : String) (first_chunk : Bool)
    (c : UpstreamChunk) : List RespEvent × String × Bool :=
  match c with
  | .done => ([.responseDone response_id "completed"], "", first_chunk)
  | .chunk choices =>
    let fires := first_chunk && !choices.isEmpty
    let added : List RespEvent :=
      if fires then [.outputItemAdded itemId "assistant" []] else []
    let first' := if fires then false else first_chunk
    match choices.head? with
    | none => (added, "", first')
    | some choice => (added ++ (choiceEvents choice).1, (choiceEvents choice).2, first')

/-- The translation loop of `stream_wrapper` over the upstream frames it
consumed (`routes_openai.py:598-658`): events in emission order, the
joined `assistant_message_content` accumulator, and the final
`first_chunk` flag. -/
def processStream (itemId : String) (response_id : String) :
    List UpstreamChunk → Bool → List RespEvent × String × Bool
  | [], fc => ([], "", fc)
  | c :: rest, fc =>
    let step := chunkEvents itemId response_id fc c
    let tail := processStream itemId response_id rest step.2.2
    (step.1 ++ tail.1, step.2.1 ++ tail.2.1, tail.2.2)

/-- How the generator's run ended: exhausted the upstream normally, was
closed by a client disconnect (`GeneratorExit`, `routes_openai.py:659`), or
raised a translation exception (`routes_openai.py:661`, which sets
`streaming_error`). -/
inductive StreamEnding where
  | completed : StreamEnding
  | clientCancelled : StreamEnding
  | faulted (message : String) : StreamEnding
deriving DecidableEq

/-- Observable effects of one full run of `stream_wrapper`: every event
that reached the wire, whether the guaranteed-release block closed the
upstream connection, the `response_store.create` call it made (if any),
and the status recorded to history. -/
structure StreamFinal where
  events : List RespEvent
  connectionClosed : Bool
  persisted : Option (List SimpleMessage × String)
  historyStatus : Nat
deriving DecidableEq

/-- One full run of `stream_wrapper` (`routes_openai.py:595-693`): the
translation loop over the frames consumed before `ending`, the best-effort
`response.error` event on a translation exception, then the `finally`
block: close the connection, persist `messages + [assistant reply]` when
`store` was requested and `streaming_error` is unset (a client disconnect
leaves it unset), and record history with 500 on error, else 200. -/
def responsesStreamRun (store : Bool) (priorMessages : List SimpleMessage)
    (model : String) (itemId : String) (response_id : String)
    (chunks : List UpstreamChunk) (ending : StreamEnding) : StreamFinal :=
  let run := processStream itemId response_id chunks true
  let isFault : Bool := match ending with | .faulted _ => true | _ => false
  let errorEvents : List RespEvent :=
    match ending with
    | .faulted m => [.responseError m]
    | _ => []
  { events := run.1 ++ errorEvents
    connectionClosed := true
    persisted :=
      if store && !isFault then
        some (priorMessages ++ [{ role := "assistant", content := run.2.1 }], model)
      else none
    historyStatus := if isFault then 500 else 200 }

/-- Whether an upstream frame has a truthy `choices` list — the actual
trigger of `response.output_item.added` (`routes_openai.py:624`). -/
def chunkHasChoices : UpstreamChunk → Bool
  | .done => false
  | .chunk choices => !choices.isEmpty

/-- Stated from the spec's words (§4.4: "the first chunk that carries any
content"), for comparison with the code's trigger `chunkHasChoices`: a
frame carries content when some choice has a non-empty text fragment or a
non-empty tool-call arguments fragment. -/
def chunkCarriesContentSpec : UpstreamChunk → Bool
  | .done => false
  | .chunk choices =>
    choices.any (fun ch =>
      (match ch.content with | some s => !s.isEmpty | none => false)
      || ch.tool_calls.any (fun tc =>
            match tc.arguments with | some a => !a.isEmpty | none => false))

/-- Whether an event is `response.output_item.added`. -/
def isOutputItemAdded : RespEvent → Bool
  | .outputItemAdded _ _ _ => true
  | _ => false

/-- Number of `response.output_item.added` events in a list. -/
def countOutputItemAdded (events : List RespEvent) : Nat :=
  events.countP (fun e => isOutputItemAdded e)

/-- A frame with a non-empty `choices` list whose only choice carries no
text and no tool-call fragment (e.g. a role-announcement delta). -/
def contentlessChoicesChunk : UpstreamChunk := .chunk [{ content := none, tool_calls := [] }]

/-- A registry with no records, for exercising the no-modification path. -/
def emptyRegistry : TruncationRegistry where
  get_tool_truncation := fun _ => none
  get_content_truncation := fun _ => none

/-- A plain user message untouched by the repair loop. -/
def plainUserMsgs : List ChatMessage := [{ role := "user", content := .text "hello" }]

/-- A two-record history at capacity `max_size = 2`, for exercising
eviction. -/
def historyWitnessInit : RequestHistory :=
  { max_size := 2, records := [{ id := "h1" }, { id := "h2" }] }

/-- A fresh history entry recorded into `historyWitnessInit`. -/
def historyWitnessEntry : HistoryEntry := { id := "h3" }

/-- The rewritten message of the tool-result arm (`routes_openai.py:212-221`):
the original message with its content replaced by the synthesized notice,
the separator, and the original content. -/
def rewrittenToolMessage (info : ToolTruncationInfo) (id : String) (msg : ChatMessage) :
    ChatMessage :=
  { msg with
    content := .text (generate_truncation_tool_result info.tool_name id info.truncation_info
      ++ toolResultSeparator ++ fstr msg.content) }

/-! ## Theorems -/

/-! ### Helper lemmas about the repair loop -/

/-- The repair loop emits, in order, the per-message emissions of
`repairStep`. -/
theorem repairMessages_eq_flatMap (reg : TruncationRegistry) (msgs : List ChatMessage) :
    (repairMessages reg msgs).1 = msgs.flatMap (fun m => (repairStep reg m).1) := by
  induction msgs with
  | nil => rfl
  | cons m rest ih => simp [repairMessages, ih]

/-- `repairStep` emits two messages for a qualifying assistant message and
exactly one message otherwise. -/
theorem repairStep_length (reg : TruncationRegistry) (msg : ChatMessage) :
    (repairStep reg msg).1.length = if qualifiesContentTruncation reg msg then 2 else 1 := by
  unfold repairStep repairStepAssistant qualifiesContentTruncation
  by_cases htool : (msg.role = "tool" && optTruthy msg.tool_call_id) = true
  · rw [if_pos htool]
    have hrole : msg.role = "tool" := by
      simpa using (Bool.and_eq_true_iff.mp htool).1
    cases hlook : reg.get_tool_truncation (msg.tool_call_id.getD "") with
    | some info => simp [hrole]
    | none => simp [hrole]
  · rw [if_neg htool]
    by_cases hassist : (msg.role = "assistant" && contentTruthy msg.content
        && isTextContent msg.content) = true
    · rw [if_pos hassist]
      cases hlook : reg.get_content_truncation (fstr msg.content) with
      | some info => simp [hassist, hlook]
      | none => simp [hassist, hlook]
    · rw [if_neg hassist]
      simp [hassist]

/-- The first message `repairStep` emits is the original message with at
most its content rewritten; a second emitted message can only be the fixed
synthetic user message. -/
theorem repairStep_shape (reg : TruncationRegistry) (msg : ChatMessage) :
    ∃ m', ((repairStep reg msg).1 = [m'] ∨ (repairStep reg msg).1 = [m', syntheticUserMessage])
      ∧ m'.role = msg.role ∧ m'.name = msg.name ∧ m'.tool_calls = msg.tool_calls
      ∧ m'.tool_call_id = msg.tool_call_id := by
  unfold repairStep repairStepAssistant
  by_cases htool : (msg.role = "tool" && optTruthy msg.tool_call_id) = true
  · rw [if_pos htool]
    cases hlook : reg.get_tool_truncation (msg.tool_call_id.getD "") with
    | some info =>
      refine ⟨_, Or.inl rfl, rfl, rfl, rfl, rfl⟩
    | none =>
      by_cases hassist : (msg.role = "assistant" && contentTruthy msg.content
          && isTextContent msg.content) = true
      · rw [if_pos hassist]
        cases reg.get_content_truncation (fstr msg.content) with
        | some info => exact ⟨msg, Or.inr rfl, rfl, rfl, rfl, rfl⟩
        | none => exact ⟨msg, Or.inl rfl, rfl, rfl, rfl, rfl⟩
      · rw [if_neg hassist]
        exact ⟨msg, Or.inl rfl, rfl, rfl, rfl, rfl⟩
  · rw [if_neg htool]
    by_cases hassist : (msg.role = "assistant" && contentTruthy msg.content
        && isTextContent msg.content) = true
    · rw [if_pos hassist]
      cases reg.get_content_truncation (fstr msg.content) with
      | some info => exact ⟨msg, Or.inr rfl, rfl, rfl, rfl, rfl⟩
      | none => exact ⟨msg, Or.inl rfl, rfl, rfl, rfl, rfl⟩
    · rw [if_neg hassist]
      exact ⟨msg, Or.inl rfl, rfl, rfl, rfl, rfl⟩

/-- A step that reports no modification emits the message unchanged. -/
theorem repairStep_count_zero (reg : TruncationRegistry) (msg : ChatMessage)
    (h : (repairStep reg msg).2.1 + (repairStep reg msg).2.2 = 0) :
    (repairStep reg msg).1 = [msg] := by
  revert h
  unfold repairStep repairStepAssistant
  by_cases htool : (msg.role = "tool" && optTruthy msg.tool_call_id) = true
  · rw [if_pos htool]
    cases reg.get_tool_truncation (msg.tool_call_id.getD "") with
    | some info => intro h; simp at h
    | none =>
      by_cases hassist : (msg.role = "assistant" && contentTruthy msg.content
          && isTextContent msg.content) = true
      · rw [if_pos hassist]
        cases reg.get_content_truncation (fstr msg.content) with
        | some info => intro h; simp at h
        | none => intro _; rfl
      · rw [if_neg hassist]; intro _; rfl
  · rw [if_neg htool]
    by_cases hassist : (msg.role = "assistant" && contentTruthy msg.content
        && isTextContent msg.content) = true
    · rw [if_pos hassist]
      cases reg.get_content_truncation (fstr msg.content) with
      | some info => intro h; simp at h
      | none => intro _; rfl
    · rw [if_neg hassist]; intro _; rfl

/-- When the repair loop reports no modification, its output is the input. -/
theorem repairMessages_count_zero (reg : TruncationRegistry) (msgs : List ChatMessage)
    (h : (repairMessages reg msgs).2.1 + (repairMessages reg msgs).2.2 = 0) :
    (repairMessages reg msgs).1 = msgs := by
  induction msgs with
  | nil => rfl
  | cons m rest ih =>
    simp only [repairMessages] at h ⊢
    have hstep : (repairStep reg m).2.1 + (repairStep reg m).2.2 = 0 := by omega
    have htail : (repairMessages reg rest).2.1 + (repairMessages reg rest).2.2 = 0 := by omega
    rw [repairStep_count_zero reg m hstep, ih htail]
    rfl

/-! ### Claim theorems about the truncation-recovery repair -/

/-- C4: the repair loop never drops a message, inserts at most one
synthetic user message per qualifying assistant message (and only for
those), and emits its output strictly in the transformed/insert-augmented
original order: the output is the in-order concatenation of per-message
emissions, each emission starting with the original message (with at most
its content rewritten) and at most followed by the one synthetic user
message. -/
theorem repair_never_drops_and_preserves_order (reg : TruncationRegistry)
    (msgs : List ChatMessage) :
    (repairMessages reg msgs).1 = msgs.flatMap (fun m => (repairStep reg m).1)
    ∧ (∀ m : ChatMessage,
        (repairStep reg m).1.length = if qualifiesContentTruncation reg m then 2 else 1)
    ∧ (∀ m : ChatMessage, ∃ m',
        ((repairStep reg m).1 = [m'] ∨ (repairStep reg m).1 = [m', syntheticUserMessage])
        ∧ m'.role = m.role ∧ m'.name = m.name ∧ m'.tool_calls = m.tool_calls
        ∧ m'.tool_call_id = m.tool_call_id) :=
  ⟨repairMessages_eq_flatMap reg msgs, fun m => repairStep_length reg m,
    fun m => repairStep_shape reg m⟩

/-- C3, counterexample: against an unchanged registry holding a tool-call
record, running the repair twice on a matching tool message prepends the
synthesized notice a second time, so the result differs from a single
run. -/
theorem repair_not_idempotent_cex :
    (repairMessages cexRegistry (repairMessages cexRegistry cexMsgs).1).1
      ≠ (repairMessages cexRegistry cexMsgs).1 := by decide

/-- C3, amended: running the repair twice against an unchanged truncation
registry coincides with running it once when the first run reports no
modification; when the first run did rewrite something, a second run
re-applies the rewrite (see `repair_not_idempotent_cex`). -/
theorem repair_idempotent_when_unmodified (reg : TruncationRegistry)
    (msgs : List ChatMessage) (h : repairModifiedCount reg msgs = 0) :
    repairMessages reg ((repairMessages reg msgs).1) = repairMessages reg msgs := by
  rw [repairMessages_count_zero reg msgs h]

/-- Witness for `repair_idempotent_when_unmodified` at a concrete input. -/
theorem repair_idempotent_when_unmodified_witness :
    repairMessages emptyRegistry ((repairMessages emptyRegistry plainUserMsgs).1)
      = repairMessages emptyRegistry plainUserMsgs :=
  repair_idempotent_when_unmodified emptyRegistry plainUserMsgs (by decide)

/-- C5: a `tool` message with a non-empty `tool_call_id` held by the
registry is emitted, in place of the original, with its content replaced
by exactly `synthesized_notice ++ "\n\n---\n\nOriginal tool result:\n" ++
original_content`. -/
theorem repair_rewrites_truncated_tool_result (reg : TruncationRegistry)
    (msg : ChatMessage) (id : String) (info : ToolTruncationInfo)
    (pre post : List ChatMessage)
    (hrole : msg.role = "tool") (hid : msg.tool_call_id = some id) (hne : id ≠ "")
    (hreg : reg.get_tool_truncation id = some info) :
    (repairStep reg msg).1 = [rewrittenToolMessage info id msg]
    ∧ (rewrittenToolMessage info id msg).content
        = .text (generate_truncation_tool_result info.tool_name id info.truncation_info
            ++ toolResultSeparator ++ fstr msg.content)
    ∧ (repairMessages reg (pre ++ msg :: post)).1
        = (repairMessages reg pre).1
          ++ rewrittenToolMessage info id msg :: (repairMessages reg post).1 := by
  have hempty : id.isEmpty = false := by
    cases he : id.isEmpty with
    | false => rfl
    | true => exact absurd ((String.isEmpty_iff id).mp he) hne
  have hguard : (msg.role = "tool" && optTruthy msg.tool_call_id) = true := by
    simp [hrole, hid, optTruthy, hempty]
  have hstep : (repairStep reg msg).1 = [rewrittenToolMessage info id msg] := by
    unfold repairStep
    rw [if_pos hguard, hid]
    simp only [Option.getD_some, hreg, rewrittenToolMessage, hid]
  refine ⟨hstep, rfl, ?_⟩
  rw [repairMessages_eq_flatMap, List.flatMap_append, List.flatMap_cons, hstep,
    ← repairMessages_eq_flatMap, ← repairMessages_eq_flatMap]
  simp

/-- Witness for `repair_rewrites_truncated_tool_result` at a concrete
input. -/
theorem repair_rewrites_truncated_tool_result_witness :
    (repairStep cexRegistry
        { role := "tool", content := .text "original tool output", tool_call_id := some "call_1" }).1
      = [rewrittenToolMessage { tool_name := "read_file", truncation_info := "output exceeded limit" }
          "call_1"
          { role := "tool", content := .text "original tool output", tool_call_id := some "call_1" }]
    ∧ (rewrittenToolMessage { tool_name := "read_file", truncation_info := "output exceeded limit" }
          "call_1"
          { role := "tool", content := .text "original tool output", tool_call_id := some "call_1" }).content
        = .text (generate_truncation_tool_result "read_file" "call_1" "output exceeded limit"
            ++ toolResultSeparator ++ fstr (.text "original tool output"))
    ∧ (repairMessages cexRegistry (plainUserMsgs
          ++ { role := "tool", content := .text "original tool output",
               tool_call_id := some "call_1" } :: [])).1
        = (repairMessages cexRegistry plainUserMsgs).1
          ++ rewrittenToolMessage { tool_name := "read_file", truncation_info := "output exceeded limit" }
              "call_1"
              { role := "tool", content := .text "original tool output", tool_call_id := some "call_1" }
            :: (repairMessages cexRegistry []).1 :=
  repair_rewrites_truncated_tool_result cexRegistry
    { role := "tool", content := .text "original tool output", tool_call_id := some "call_1" }
    "call_1" { tool_name := "read_file", truncation_info := "output exceeded limit" }
    plainUserMsgs [] rfl rfl (by decide) (by decide)

/-! ### Claim theorems about the stores, key manager and handlers -/

/-- C6: the startup expiration sweep keeps a record with a parseable
`last_accessed` exactly when it is at or after the cutoff (so a timestamp
equal to the cutoff survives, one strictly older is purged), and always
removes a record whose `last_accessed` cannot be parsed. -/
theorem cleanup_expired_strict_cutoff (cutoff t : Int)
    (states : List (String × ResponseState)) (id : String) (st : ResponseState) :
    (st.last_accessed = some (.valid t) →
      ((id, st) ∈ cleanupExpired cutoff states ↔ ((id, st) ∈ states ∧ cutoff ≤ t)))
    ∧ (st.last_accessed = some .invalid → (id, st) ∉ cleanupExpired cutoff states) := by
  constructor
  · intro h
    simp [cleanupExpired, List.mem_filter, tsExpired, effectiveTimestamp, h, Int.not_lt]
  · intro h
    simp [cleanupExpired, List.mem_filter, tsExpired, effectiveTimestamp, h]

/-- Witness for `cleanup_expired_strict_cutoff`: a record dated exactly at
the cutoff survives the sweep. -/
theorem cleanup_expired_strict_cutoff_witness :
    (("a", ({ last_accessed := some (.valid 5) } : ResponseState))
        ∈ cleanupExpired 5 [("a", ({ last_accessed := some (.valid 5) } : ResponseState))]
      ↔ (("a", ({ last_accessed := some (.valid 5) } : ResponseState))
          ∈ [("a", ({ last_accessed := some (.valid 5) } : ResponseState))] ∧ (5 : Int) ≤ 5)) :=
  (cleanup_expired_strict_cutoff 5 5
    [("a", ({ last_accessed := some (.valid 5) } : ResponseState))] "a"
    ({ last_accessed := some (.valid 5) } : ResponseState)).1 rfl

/-- Helper: `RequestHistory.record` leaves `max_size` unchanged, so a fold
of records does too. -/
theorem foldl_record_max_size (es : List HistoryEntry) (h : RequestHistory) :
    (es.foldl RequestHistory.record h).max_size = h.max_size := by
  induction es generalizing h with
  | nil => rfl
  | cons e rest ih => simpa [List.foldl_cons] using ih (h.record e)

/-- Helper: from a buffer within capacity, any sequence of `record` calls
stays within capacity. -/
theorem foldl_record_length_le (es : List HistoryEntry) (h : RequestHistory)
    (hb : h.records.length ≤ h.max_size) :
    (es.foldl RequestHistory.record h).records.length ≤ h.max_size := by
  induction es generalizing h with
  | nil => simpa using hb
  | cons e rest ih =>
    have hstep : (h.record e).records.length ≤ (h.record e).max_size := by
      simp [RequestHistory.record]
    have := ih (h.record e) (by simp [RequestHistory.record])
    simpa [List.foldl_cons, RequestHistory.record] using this

/-- C9: starting within capacity, the history buffer never exceeds
`max_size` under any sequence of `record` calls; each new record lands at
the front; and a `record` call on a full buffer drops exactly the oldest
(last) entry. -/
theorem requestHistory_record_invariants (h : RequestHistory) (e : HistoryEntry)
    (es : List HistoryEntry) :
    (h.records.length ≤ h.max_size →
       (es.foldl RequestHistory.record h).records.length ≤ h.max_size)
    ∧ (0 < h.max_size → (h.record e).records.head? = some e)
    ∧ (h.records.length = h.max_size → 0 < h.max_size →
       (h.record e).records = e :: h.records.dropLast) := by
  refine ⟨fun hb => foldl_record_length_le es h hb, fun hpos => ?_, fun hfull hpos => ?_⟩
  · obtain ⟨n, hn⟩ := Nat.exists_eq_succ_of_ne_zero (Nat.pos_iff_ne_zero.mp hpos)
    simp [RequestHistory.record, hn]
  · obtain ⟨n, hn⟩ := Nat.exists_eq_succ_of_ne_zero (Nat.pos_iff_ne_zero.mp hpos)
    simp only [RequestHistory.record, hn, List.take_succ_cons]
    rw [List.dropLast_eq_take, hfull, hn]
    simp

/-- Witness for `requestHistory_record_invariants`: recording into a full
two-entry buffer keeps the bound, puts the new entry first and evicts the
oldest. -/
theorem requestHistory_record_invariants_witness :
    (([historyWitnessEntry].foldl RequestHistory.record historyWitnessInit).records.length
        ≤ historyWitnessInit.max_size)
    ∧ ((historyWitnessInit.record historyWitnessEntry).records.head? = some historyWitnessEntry)
    ∧ ((historyWitnessInit.record historyWitnessEntry).records
        = historyWitnessEntry :: historyWitnessInit.records.dropLast) :=
  ⟨(requestHistory_record_invariants historyWitnessInit historyWitnessEntry
      [historyWitnessEntry]).1 (by decide),
   (requestHistory_record_invariants historyWitnessInit historyWitnessEntry
      [historyWitnessEntry]).2.1 (by decide),
   (requestHistory_record_invariants historyWitnessInit historyWitnessEntry
      [historyWitnessEntry]).2.2 (by decide) (by decide)⟩

/-- C10: `verify_key` accepts a bearer token exactly when it equals the
environment `PROXY_API_KEY` or matches the key of some enabled stored
entry; a token held only by disabled entries is rejected. -/
theorem verify_key_iff (proxyApiKey : Option String) (keys : List ApiKeyEntry)
    (token : String) :
    verify_key proxyApiKey keys token = true
      ↔ (proxyApiKey = some token ∨ ∃ e ∈ keys, e.enabled = true ∧ e.key = token) := by
  unfold verify_key
  by_cases hp : proxyApiKey = some token
  · simp [hp]
  · simp [hp, List.any_eq_true, Bool.and_eq_true]

/-- C1: in non-streaming mode, a non-2xx upstream status makes both
handlers return a JSON error envelope
`{error: {message, type, code}}` whose `code` equals the upstream status,
served with that same HTTP status. -/
theorem nonStreaming_upstream_error_envelope (status : Nat) (errorBody : String)
    (enhance : String → Option String) (h : status < 200 ∨ 300 ≤ status) :
    chatCompletionsAfterUpstream false status errorBody enhance
      = .jsonError status
          { message := (enhance errorBody).getD errorBody, type := "kiro_api_error", code := status }
    ∧ responsesAfterUpstream false status errorBody enhance
      = .jsonError status
          { message := (enhance errorBody).getD errorBody, type := "kiro_api_error", code := status } := by
  have hne : status ≠ 200 := by omega
  constructor
  · unfold chatCompletionsAfterUpstream
    rw [if_pos hne]
  · unfold responsesAfterUpstream
    rw [if_pos hne]

/-- Witness for `nonStreaming_upstream_error_envelope` at upstream status
403 with an unparseable error body. -/
theorem nonStreaming_upstream_error_envelope_witness :
    chatCompletionsAfterUpstream false 403 "Forbidden" (fun _ => none)
      = .jsonError 403 { message := "Forbidden", type := "kiro_api_error", code := 403 }
    ∧ responsesAfterUpstream false 403 "Forbidden" (fun _ => none)
      = .jsonError 403 { message := "Forbidden", type := "kiro_api_error", code := 403 } :=
  nonStreaming_upstream_error_envelope 403 "Forbidden" (fun _ => none) (by omega)

/-- C8: a `previous_response_id` absent from the store makes the
`responses` handler fail with 404 and detail
`"Previous response ID not found: <id>"`, and the outcome does not depend
on the upstream oracle — no upstream call is made. -/
theorem unknown_previous_response_id_404 (states : List (String × ResponseState))
    (pid : String) (input : List SimpleMessage)
    (u₁ u₂ : List SimpleMessage → Nat) (h : storeGet states pid = none) :
    responsesHandlerStage states (some pid) input u₁
      = .earlyError 404 ("Previous response ID not found: " ++ pid)
    ∧ responsesHandlerStage states (some pid) input u₁
      = responsesHandlerStage states (some pid) input u₂ := by
  constructor <;> simp [responsesHandlerStage, responsesBuildMessages, h]

/-- Witness for `unknown_previous_response_id_404` on an empty store and
the id from the spec's scenario 3. -/
theorem unknown_previous_response_id_404_witness :
    responsesHandlerStage [] (some "resp_invalid_id_12345")
        [{ role := "user", content := "hello" }] (fun _ => 200)
      = .earlyError 404 ("Previous response ID not found: " ++ "resp_invalid_id_12345")
    ∧ responsesHandlerStage [] (some "resp_invalid_id_12345")
        [{ role := "user", content := "hello" }] (fun _ => 200)
      = responsesHandlerStage [] (some "resp_invalid_id_12345")
        [{ role := "user", content := "hello" }] (fun _ => 500) :=
  unknown_previous_response_id_404 [] "resp_invalid_id_12345"
    [{ role := "user", content := "hello" }] (fun _ => 200) (fun _ => 500) rfl

/-- C2: for a streaming Responses request with `store = true`, the
guaranteed-release block persists the prior messages, the new input and
the accumulated assistant text both on normal completion and on client
cancellation, and skips persistence exactly when a translation exception
was raised; the upstream connection is closed on every ending. -/
theorem responsesStream_persistence (prior : List SimpleMessage)
    (model itemId response_id : String) (chunks : List UpstreamChunk) (m : String) :
    (responsesStreamRun true prior model itemId response_id chunks .clientCancelled).persisted
      = some (prior
          ++ [⟨"assistant", (processStream itemId response_id chunks true).2.1⟩], model)
    ∧ (responsesStreamRun true prior model itemId response_id chunks (.faulted m)).persisted
      = none
    ∧ (responsesStreamRun true prior model itemId response_id chunks .completed).persisted
      = some (prior
          ++ [⟨"assistant", (processStream itemId response_id chunks true).2.1⟩], model)
    ∧ (∀ ending : StreamEnding,
        (responsesStreamRun true prior model itemId response_id chunks ending).connectionClosed
          = true) :=
  ⟨rfl, rfl, rfl, fun _ => rfl⟩

/-! ### Helper lemmas about the streaming translator -/

/-- No delta event produced from a choice is `response.output_item.added`. -/
theorem choiceEvents_no_added (ch : ChoiceDelta) :
    ∀ e ∈ (choiceEvents ch).1, isOutputItemAdded e = false := by
  intro e he
  unfold choiceEvents at he
  simp only [List.mem_append, List.mem_flatMap] at he
  rcases he with he | ⟨tc, _, he⟩
  · rcases hc : ch.content with _ | s
    · simp [hc] at he
    · rw [hc] at he
      by_cases hs : s.isEmpty = true <;> simp [hs] at he
      subst he
      rfl
  · rcases ha : tc.arguments with _ | a
    · simp [ha] at he
    · rw [ha] at he
      by_cases hae : a.isEmpty = true <;> simp [hae] at he
      subst he
      rfl

/-- With the `first_chunk` flag already consumed, a chunk contributes no
`response.output_item.added` event and leaves the flag unset. -/
theorem chunkEvents_first_consumed (itemId response_id : String) (c : UpstreamChunk) :
    (∀ e ∈ (chunkEvents itemId response_id false c).1, isOutputItemAdded e = false)
    ∧ (chunkEvents itemId response_id false c).2.2 = false := by
  cases c with
  | done =>
    refine ⟨?_, rfl⟩
    intro e he
    simp [chunkEvents] at he
    subst he
    rfl
  | chunk choices =>
    cases choices with
    | nil =>
      refine ⟨?_, rfl⟩
      intro e he
      simp [chunkEvents] at he
    | cons ch rest =>
      refine ⟨?_, rfl⟩
      intro e he
      simp [chunkEvents] at he
      exact choiceEvents_no_added ch e he

/-- A chunk without a truthy `choices` list contributes no
`response.output_item.added` event and leaves the flag as it was. -/
theorem chunkEvents_no_choices (itemId response_id : String) (fc : Bool)
    (c : UpstreamChunk) (hc : chunkHasChoices c = false) :
    (∀ e ∈ (chunkEvents itemId response_id fc c).1, isOutputItemAdded e = false)
    ∧ (chunkEvents itemId response_id fc c).2.2 = fc := by
  cases c with
  | done =>
    refine ⟨?_, rfl⟩
    intro e he
    simp [chunkEvents] at he
    subst he
    rfl
  | chunk choices =>
    cases choices with
    | nil =>
      constructor
      · intro e he
        simp [chunkEvents] at he
      · simp [chunkEvents]
    | cons ch rest => simp [chunkHasChoices] at hc

/-- On the first chunk with a truthy `choices` list, the translator emits
the `response.output_item.added` event first, followed by the same delta
events it would emit with the flag consumed, and clears the flag. -/
theorem chunkEvents_first_choices (itemId response_id : String) (c : UpstreamChunk)
    (hc : chunkHasChoices c = true) :
    ∃ ch tl, c = .chunk (ch :: tl)
    ∧ (chunkEvents itemId response_id true c).1
        = .outputItemAdded itemId "assistant" [] :: (choiceEvents ch).1
    ∧ (chunkEvents itemId response_id false c).1 = (choiceEvents ch).1
    ∧ (chunkEvents itemId response_id true c).2.2 = false := by
  cases c with
  | done => simp [chunkHasChoices] at hc
  | chunk choices =>
    cases choices with
    | nil => simp [chunkHasChoices] at hc
    | cons ch tl => exact ⟨ch, tl, rfl, rfl, rfl, rfl⟩

/-- With the flag already consumed, a whole stream contributes no
`response.output_item.added` event and the flag stays unset. -/
theorem processStream_first_consumed (itemId response_id : String)
    (chunks : List UpstreamChunk) :
    (∀ e ∈ (processStream itemId response_id chunks false).1, isOutputItemAdded e = false)
    ∧ (processStream itemId response_id chunks false).2.2 = false := by
  induction chunks with
  | nil =>
    refine ⟨?_, rfl⟩
    intro e he
    simp [processStream] at he
  | cons c rest ih =>
    have hc := chunkEvents_first_consumed itemId response_id c
    constructor
    · intro e he
      simp only [processStream, hc.2, List.mem_append] at he
      rcases he with he | he
      · exact hc.1 e he
      · exact ih.1 e he
    · simp only [processStream, hc.2]
      exact ih.2

/-- The translator emits `response.output_item.added` exactly once when
some chunk has a truthy `choices` list, and never otherwise. -/
theorem processStream_added_count (itemId response_id : String)
    (chunks : List UpstreamChunk) :
    countOutputItemAdded (processStream itemId response_id chunks true).1
      = if chunks.any chunkHasChoices then 1 else 0 := by
  induction chunks with
  | nil => simp [processStream, countOutputItemAdded]
  | cons c rest ih =>
    cases hc : chunkHasChoices c with
    | true =>
      obtain ⟨ch, tl, hceq, hev, hev', hflag⟩ :=
        chunkEvents_first_choices itemId response_id c hc
      have hbody : countOutputItemAdded (choiceEvents ch).1 = 0 :=
        List.countP_eq_zero.mpr (fun e he => by simp [choiceEvents_no_added ch e he])
      have htail :
          countOutputItemAdded (processStream itemId response_id rest false).1 = 0 :=
        List.countP_eq_zero.mpr (fun e he => by
          simp [(processStream_first_consumed itemId response_id rest).1 e he])
      simp only [processStream, hev, hflag, List.any_cons, hc, Bool.true_or, if_true]
      unfold countOutputItemAdded at hbody htail ⊢
      rw [List.cons_append, List.countP_cons, List.countP_append, hbody, htail]
      simp [isOutputItemAdded]
    | false =>
      have hstep := chunkEvents_no_choices itemId response_id true c hc
      have hev : countOutputItemAdded (chunkEvents itemId response_id true c).1 = 0 :=
        List.countP_eq_zero.mpr (fun e he => by simp [hstep.1 e he])
      simp only [processStream, hstep.2, List.any_cons, hc, Bool.false_or]
      simp only [countOutputItemAdded, List.countP_append] at hev ih ⊢
      rw [hev, ih]
      omega

/-- The `response.output_item.added` event is emitted at the processing of
the first chunk with a truthy `choices` list, before that chunk's delta
events. -/
theorem processStream_added_position (itemId response_id : String)
    (pre post : List UpstreamChunk) (c : UpstreamChunk)
    (hpre : ∀ p ∈ pre, chunkHasChoices p = false) (hc : chunkHasChoices c = true) :
    (processStream itemId response_id (pre ++ c :: post) true).1
      = (processStream itemId response_id pre true).1
        ++ .outputItemAdded itemId "assistant" []
          :: ((chunkEvents itemId response_id false c).1
              ++ (processStream itemId response_id post false).1) := by
  induction pre with
  | nil =>
    obtain ⟨ch, tl, hceq, hev, hev', hflag⟩ :=
      chunkEvents_first_choices itemId response_id c hc
    simp only [List.nil_append, processStream, hev, hflag, hev', List.cons_append]
  | cons p pre' ih =>
    have hp := chunkEvents_no_choices itemId response_id true p
      (hpre p (List.mem_cons_self p pre'))
    have ih' := ih (fun q hq => hpre q (List.mem_cons_of_mem p hq))
    simp only [List.cons_append, processStream, hp.2, List.append_eq, ih',
      List.append_assoc]

/-- C7, counterexample: a stream consisting of one chunk that carries no
text or tool-call content (only a truthy `choices` list) still triggers
one `response.output_item.added` event, so the event is not emitted "on
the first upstream chunk that carries any content". -/
theorem output_item_added_contentless_cex :
    chunkCarriesContentSpec contentlessChoicesChunk = false
    ∧ countOutputItemAdded
        (processStream "item_00000000" "resp_0" [contentlessChoicesChunk] true).1 = 1 := by
  decide

/-- C7, amended: the `response.output_item.added` event (the given item
id, role `assistant`, empty content) is emitted exactly once when some
chunk has a truthy `choices` list — namely at the processing of the first
such chunk, before its delta events — and never when no chunk does; the
triggering chunk need not carry text or tool-call content. -/
theorem output_item_added_once_on_first_choices (itemId response_id : String)
    (chunks pre post : List UpstreamChunk) (c : UpstreamChunk) :
    countOutputItemAdded (processStream itemId response_id chunks true).1
      = (if chunks.any chunkHasChoices then 1 else 0)
    ∧ (chunks = pre ++ c :: post → (∀ p ∈ pre, chunkHasChoices p = false) →
        chunkHasChoices c = true →
        (processStream itemId response_id chunks true).1
          = (processStream itemId response_id pre true).1
            ++ .outputItemAdded itemId "assistant" []
              :: ((chunkEvents itemId response_id false c).1
                  ++ (processStream itemId response_id post false).1)) := by
  refine ⟨processStream_added_count itemId response_id chunks, fun hchunks hpre hc => ?_⟩
  subst hchunks
  exact processStream_added_position itemId response_id pre post c hpre hc

/-- Witness for `output_item_added_once_on_first_choices`: a `[DONE]`
frame followed by a choices-bearing frame yields exactly one
`response.output_item.added`, positioned after the events of the leading
frame. -/
theorem output_item_added_once_on_first_choices_witness :
    countOutputItemAdded (processStream "item_1" "resp_1"
        [UpstreamChunk.done, contentlessChoicesChunk] true).1
      = (if ([UpstreamChunk.done, contentlessChoicesChunk].any chunkHasChoices) then 1 else 0)
    ∧ (processStream "item_1" "resp_1" [UpstreamChunk.done, contentlessChoicesChunk] true).1
      = (processStream "item_1" "resp_1" [UpstreamChunk.done] true).1
        ++ .outputItemAdded "item_1" "assistant" []
          :: ((chunkEvents "item_1" "resp_1" false contentlessChoicesChunk).1
              ++ (processStream "item_1" "resp_1" [] false).1) :=
  ⟨(output_item_added_once_on_first_choices "item_1" "resp_1"
      [UpstreamChunk.done, contentlessChoicesChunk] [UpstreamChunk.done] []
      contentlessChoicesChunk).1,
   (output_item_added_once_on_first_choices "item_1" "resp_1"
      [UpstreamChunk.done, contentlessChoicesChunk] [UpstreamChunk.done] []
      contentlessChoicesChunk).2 rfl (by decide) (by decide)⟩

end Kiro
